import Mathlib

/-!
Verification development for the game-ai-agent backend.

Shallow embedding of the session/connection orchestration layer:
the connection registry (`app/core/connection.py`), the agent variants and
factory (`app/domain/agent.py`), the envelope schemas (`app/schema/message.py`,
modelled after pydantic validation), the subprocess wrapper
(`app/utils/subprocess.py`) and the dispatcher
(`app/services/websocket_service.py`).

External collaborators (the OpenAI / Ollama completion clients and the
`node` verifier subprocess) are passed in as oracle functions; a provider
failure is an `Except.error`.  Mutation of Python objects is modelled by
explicit state passing; an uncaught Python exception is modelled by an
`Except.error` / `Option.none` result, and the dispatcher's `except` blocks
by the `caught` field of `HandleResult`.
-/

/-- Chat roles used by `OpenAIAgent` (`ROLE_SYSTEM` / `ROLE_USER` /
`ROLE_ASSISTANT` in `agent.py`). -/
inductive Role where
  | system
  | user
  | assistant
deriving DecidableEq, Repr

/-- One `{"role": ..., "content": ...}` entry of an OpenAI message list. -/
structure Msg where
  role : Role
  content : String
deriving DecidableEq, Repr

/-- Embedding of `MessageType` enum from `app/utils/enum.py`. -/
inductive MessageType where
  | INITIALIZATION
  | CHAT
  | ANSWER
  | RESULT
deriving DecidableEq, Repr

/-- The wire string of each `MessageType` member (its `.value`). -/
def MessageType.value : MessageType → String
  | .INITIALIZATION => "initialization"
  | .CHAT => "chat"
  | .ANSWER => "answer"
  | .RESULT => "result"

/-- Pydantic coercion of a wire string into the `MessageType` enum;
`none` models the `ValidationError` raised on an unrecognized value. -/
def MessageType.ofString : String → Option MessageType
  | "initialization" => some .INITIALIZATION
  | "chat" => some .CHAT
  | "answer" => some .ANSWER
  | "result" => some .RESULT
  | _ => none

/-- Embedding of `GameType` enum from `app/utils/enum.py` (single member). -/
inductive GameType where
  | TWO_TRUTH_A_LIE
deriving DecidableEq, Repr

/-- Pydantic coercion of a wire string into the `GameType` enum. -/
def GameType.ofString : String → Option GameType
  | "two_truth_a_lie" => some .TWO_TRUTH_A_LIE
  | _ => none

/-- Embedding of `LLMType` enum from `app/utils/enum.py`. -/
inductive LLMType where
  | OPEN_AI
  | OLLAMA
deriving DecidableEq, Repr

/-- The Python exceptions that can be raised inside
`WebsocketService.handle_message`'s `try` block (all are subclasses of
`Exception`, so all are caught by its handlers):
`ValidationError` from pydantic, `NotImplementedError` from the factory,
`KeyError` from `self.agents[room_id]` on a missing session,
`RuntimeError` re-raised by `OpenAIAgent.get_response`, a raw provider/client
exception, and `AttributeError` from `output.stdout` when
`subprocess.execute` returned `None`. -/
inductive CaughtErr where
  | validationError
  | notImplementedError
  | keyError
  | runtimeError
  | providerError
  | attributeError
deriving DecidableEq, Repr

/-- Embedding of `ValueError` raised by Python `list.remove` on an absent element. -/
inductive PyError where
  | valueError
deriving DecidableEq, Repr

/-- Outbound envelopes built by the dispatcher: `ResponseChatMessage`
(message_type, message, sender) and `ResultMessage`
(message_type, result, sender) from `app/schema/message.py`.
`connection.broadcast` sends the pydantic JSON dump of one such value, so a
broadcast is modelled as the value itself. -/
inductive Outbound where
  | chatMsg (message_type : String) (message : String) (sender : String)
  | resultMsg (message_type : String) (result : String) (sender : String)
deriving DecidableEq, Repr

/-- A successful `subprocess.run` result (with `check=True`, `Some` implies
exit code 0); only `stdout` is consumed by the dispatcher. -/
structure CompletedProcess where
  stdout : String
deriving DecidableEq, Repr

/-- Embedding of `Settings` fields consumed by `AgentFactory.create_agent`. -/
structure Settings where
  openai_api_key : String
  open_ai_chat_model : String
  ollama_base_url : String
  ollama_chat_model : String
deriving DecidableEq, Repr

/-- Fixed room key (`room_id` in `websocket_service.py`). -/
def room_id : String := "YRHJE7tCpDtKzMnJNw3Fk48KVia4kzKU"

/-- Embedding of `MINA_DEPLOY_ALIAS` in `websocket_service.py`. -/
def MINA_DEPLOY_ALIAS : String := "zkbot"

/-- Role tag strings shared by both agent variants. -/
def ROLE_SYSTEM : String := "system"

/-- Role tag string `"user"`. -/
def ROLE_USER : String := "user"

/-- Role tag string `"assistant"`. -/
def ROLE_ASSISTANT : String := "assistant"

/-- Embedding of `OllamaAgent.SYSTEM_PREFIX` (`"[system]\n"` in `agent.py`; renamed here
for the development's naming conventions). -/
def SYSTEM_PFX : String := "[system]\n"

/-- Embedding of `OllamaAgent.USER_PREFIX` (`"[user]\n"`). -/
def USER_PFX : String := "[user]\n"

/-- Embedding of `OllamaAgent.ASSISTANT_PREFIX` (`"[assistant]\n"`). -/
def ASSISTANT_PFX : String := "[assistant]\n"

/-- Embedding of `OllamaAgent.SEPARATOR` (`"\n\n"`). -/
def SEPARATOR : String := "\n\n"

/-- Python `lst[-10:]` applied conditionally: mirrors
`if len(self.histories) > 10: self.histories = self.histories[-10:]`. -/
def pyTail10 (l : List α) : List α :=
  if l.length > 10 then l.drop (l.length - 10) else l

/-- Embedding of `collections.deque(maxlen=10).append`: appends on the right and evicts
from the left when the deque is full. -/
def dequeAppend10 (d : List α) (x : α) : List α :=
  pyTail10 (d ++ [x])

/-- Python `str.strip()`: drop whitespace from both ends. -/
def pyStrip (s : String) : String :=
  String.mk (((s.toList.dropWhile Char.isWhitespace).reverse.dropWhile
    Char.isWhitespace).reverse)

/-- Split a character list at every occurrence of the separator (the
segments, in order; always at least one segment). -/
def splitChar (c : Char) : List Char → List (List Char)
  | [] => [[]]
  | x :: xs =>
      match splitChar c xs with
      | h :: t => if x = c then [] :: h :: t else (x :: h) :: t
      | [] => [[]]

/-- Python `str.splitlines` restricted to newline-separated text
(the dispatcher applies it after `.strip()`, so there is no trailing
newline; `"".splitlines() == []`). -/
def pySplitlines (s : String) : List String :=
  if s = "" then [] else (splitChar (Char.ofNat 10) s.toList).map String.mk

/-- Python dict read `d[k]` as an option (used to model both
`room_id not in self.agents` and the `KeyError` of `self.agents[room_id]`;
dict keys are unique, so first-binding lookup is exact). -/
def dictGet (d : List (String × α)) (k : String) : Option α :=
  match d with
  | [] => none
  | kv :: rest => if kv.1 = k then some kv.2 else dictGet rest k

/-- Python dict write `d[k] = v`: overwrites the existing binding in place,
otherwise appends (dicts preserve insertion order). -/
def dictSet (d : List (String × α)) (k : String) (v : α) : List (String × α) :=
  match d with
  | [] => [(k, v)]
  | kv :: rest => if kv.1 = k then (k, v) :: rest else kv :: dictSet rest k v

/-- Embedding of `OpenAIAgent` state (`agent.py` lines 48-60): the external `client` is
not part of the state; `histories` is a plain Python list. -/
structure OpenAIAgent where
  model_name : String
  system_prompt : String
  directional_prompt : String
  theme : String
  histories : List Msg
deriving DecidableEq, Repr

/-- Embedding of `OpenAIAgent.get_response` lines 85-89: the user turn is appended and
the history is conditionally trimmed to its last 10 entries *before* the
provider call; this mutation survives a provider failure. -/
def OpenAIAgent.afterUser (a : OpenAIAgent) (prompt : String) : OpenAIAgent :=
  { a with histories := pyTail10 (a.histories ++ [⟨Role.user, prompt⟩]) }

/-- Embedding of `OpenAIAgent.get_response` lines 91-94.  The source *reassigns*
`messages` three times instead of appending, so only the last assignment
(the assistant/theme entry) survives before `messages.extend(self.histories)`;
the let-shadowing below mirrors those reassignments exactly. -/
def OpenAIAgent.buildMessages (a : OpenAIAgent) : List Msg :=
  let messages := [Msg.mk Role.system a.system_prompt]
  let messages := [Msg.mk Role.user a.directional_prompt]
  let messages := [Msg.mk Role.assistant a.theme]
  messages ++ a.histories

/-- The message list handed to `self.client.chat.completions.create` by
`OpenAIAgent.get_response` (after the user turn has been committed). -/
def OpenAIAgent.assembled (a : OpenAIAgent) (prompt : String) : List Msg :=
  OpenAIAgent.buildMessages (a.afterUser prompt)

/-- Embedding of `OpenAIAgent.get_response` (lines 79-108): commit the user turn, call
the provider, append the assistant turn on success; on failure re-raise as
`RuntimeError` with the user turn already committed. -/
def OpenAIAgent.get_response (provider : List Msg → Except CaughtErr String)
    (a : OpenAIAgent) (prompt : String) : OpenAIAgent × Except CaughtErr String :=
  match provider (OpenAIAgent.assembled a prompt) with
  | .ok content =>
      ({ a.afterUser prompt with
          histories := (a.afterUser prompt).histories ++ [⟨Role.assistant, content⟩] },
        .ok content)
  | .error _ => (a.afterUser prompt, .error .runtimeError)

/-- Embedding of `OpenAIAgent.initialize_theme` (lines 62-77): stores the directive, calls
the provider with `[system_prompt, directive]`, stores the response as the
theme.  A client exception propagates with the directive already stored. -/
def OpenAIAgent.initialize_theme (provider : List Msg → Except CaughtErr String)
    (a : OpenAIAgent) (directional_prompt : String) : OpenAIAgent × Except CaughtErr String :=
  let a := { a with directional_prompt := directional_prompt }
  match provider [⟨Role.system, a.system_prompt⟩, ⟨Role.user, directional_prompt⟩] with
  | .ok content => ({ a with theme := content }, .ok content)
  | .error _ => (a, .error .providerError)

/-- Embedding of `OllamaAgent` state (`agent.py` lines 123-139): `histories` is a
`deque(maxlen=10)` of `(role, message)` pairs. -/
structure OllamaAgent where
  base_url : String
  model_name : String
  system_prompt : String
  directional_prompt : String
  theme : String
  histories : List (String × String)
deriving DecidableEq, Repr

/-- Embedding of `OllamaAgent.get_response` line 162: the user turn is appended to the
bounded deque before the provider call. -/
def OllamaAgent.afterUser (a : OllamaAgent) (prompt : String) : OllamaAgent :=
  { a with histories := dequeAppend10 a.histories (ROLE_USER, prompt) }

/-- Embedding of `OllamaAgent.get_response` lines 166-173: the flat prompt built from the
system prompt, the directive, the stored theme and the rolling history. -/
def OllamaAgent.full_prompt (a : OllamaAgent) : String :=
  let fp := SYSTEM_PFX ++ a.system_prompt ++ SEPARATOR
  let fp := fp ++ USER_PFX ++ a.directional_prompt ++ SEPARATOR
  let fp := fp ++ ASSISTANT_PFX ++ a.theme ++ SEPARATOR
  a.histories.foldl
    (fun fp rm =>
      if rm.1 = ROLE_USER then fp ++ USER_PFX ++ rm.2 ++ SEPARATOR
      else if rm.1 = ROLE_ASSISTANT then fp ++ ASSISTANT_PFX ++ rm.2 ++ SEPARATOR
      else fp)
    fp

/-- The string handed to `self.client` by `OllamaAgent.get_response`
(line 174: `full_prompt + self.ASSISTANT_PREFIX`), after the user turn has
been committed. -/
def OllamaAgent.assembled (a : OllamaAgent) (prompt : String) : String :=
  (a.afterUser prompt).full_prompt ++ ASSISTANT_PFX

/-- Embedding of `OllamaAgent.get_response` (lines 157-177): commit the user turn, call
the provider, append the assistant turn on success; a client exception
propagates uncaught with the user turn already committed. -/
def OllamaAgent.get_response (provider : String → Except CaughtErr String)
    (a : OllamaAgent) (prompt : String) : OllamaAgent × Except CaughtErr String :=
  match provider (OllamaAgent.assembled a prompt) with
  | .ok response =>
      ({ a.afterUser prompt with
          histories := dequeAppend10 (a.afterUser prompt).histories (ROLE_ASSISTANT, response) },
        .ok response)
  | .error _ => (a.afterUser prompt, .error .providerError)

/-- Embedding of `OllamaAgent.initialize_theme` (lines 141-155): note the prompt is built
*without* separators here, unlike `get_response`. -/
def OllamaAgent.initialize_theme (provider : String → Except CaughtErr String)
    (a : OllamaAgent) (directional_prompt : String) : OllamaAgent × Except CaughtErr String :=
  let a := { a with directional_prompt := directional_prompt }
  match provider (SYSTEM_PFX ++ a.system_prompt ++ USER_PFX ++ a.directional_prompt) with
  | .ok response => ({ a with theme := response }, .ok response)
  | .error _ => (a, .error .providerError)

/-- The `LLMAgent` abstract base: a stored agent is one of the two concrete
variants. -/
inductive LLMAgent where
  | openai (a : OpenAIAgent)
  | ollama (a : OllamaAgent)
deriving DecidableEq, Repr

/-- Dynamic dispatch of `get_response` over the stored variant. -/
def LLMAgent.get_response (openaiP : List Msg → Except CaughtErr String)
    (ollamaP : String → Except CaughtErr String)
    (ag : LLMAgent) (prompt : String) : LLMAgent × Except CaughtErr String :=
  match ag with
  | .openai a =>
      let r := OpenAIAgent.get_response openaiP a prompt
      (.openai r.1, r.2)
  | .ollama a =>
      let r := OllamaAgent.get_response ollamaP a prompt
      (.ollama r.1, r.2)

/-- Dynamic dispatch of `initialize_theme` over the stored variant. -/
def LLMAgent.initialize_theme (openaiP : List Msg → Except CaughtErr String)
    (ollamaP : String → Except CaughtErr String)
    (ag : LLMAgent) (directional_prompt : String) : LLMAgent × Except CaughtErr String :=
  match ag with
  | .openai a =>
      let r := OpenAIAgent.initialize_theme openaiP a directional_prompt
      (.openai r.1, r.2)
  | .ollama a =>
      let r := OllamaAgent.initialize_theme ollamaP a directional_prompt
      (.ollama r.1, r.2)

/-- The system prompt text stored under `GameType.TWO_TRUTH_A_LIE` in the
`system_prompts` dict at the bottom of `agent.py` (abbreviated faithfully in
structure; the exact wording is irrelevant to every claim, only its identity
as the single stored template matters). -/
def twoTruthALiePrompt : String :=
  "\nAs the host of \"Two Truths and a Lie\":\n\n1. Generate three concise statements: two truths, one lie.\n"

/-- The `system_prompts` dict: one key, `GameType.TWO_TRUTH_A_LIE`.
`none` models the `KeyError` a Python dict lookup would raise on an absent
key (unreachable, since the enum has a single member). -/
def system_prompts : GameType → Option String
  | GameType.TWO_TRUTH_A_LIE => some twoTruthALiePrompt

/-- Embedding of `AgentFactory.create_agent` (lines 193-220): look up the system prompt by
game type, then build the variant selected by `llm_type`.  Both enum matches
are total, so the `NotImplementedError` branches are unreachable in this
model (mirroring the source, where the `is None` check is dead because a
missing dict key raises `KeyError` first). -/
def AgentFactory.create_agent (config : Settings) (game_type : GameType)
    (llm_type : LLMType) : Except CaughtErr LLMAgent :=
  match system_prompts game_type with
  | none => .error .keyError
  | some system_prompt =>
      match llm_type with
      | LLMType.OPEN_AI =>
          .ok (.openai ⟨config.open_ai_chat_model, system_prompt, "", "", []⟩)
      | LLMType.OLLAMA =>
          .ok (.ollama ⟨config.ollama_base_url, config.ollama_chat_model, system_prompt, "", "", []⟩)

/-- Embedding of `Connection.disconnect` (`connection.py` lines 23-30): Python
`list.remove` deletes the first occurrence and raises `ValueError` when the
element is absent; the registry list is unchanged when the call raises. -/
def Connection.disconnect (active_connections : List String) (websocket : String) :
    Except PyError (List String) :=
  if websocket ∈ active_connections then .ok (active_connections.erase websocket)
  else .error PyError.valueError

/-- One step of `Connection.broadcast`'s `for connection in
self.active_connections` loop under Python list-iterator semantics: the
iterator holds a bare index into the *live* list.  `victim` is a connection
whose disconnect fires at the `await connection.send_text(...)` suspension
of its own delivery (a client that drops mid-broadcast), removing it from
the list the iterator is walking.  Returns the delivery attempts as
`(connection, message)` pairs; `fuel` only bounds the recursion. -/
def broadcastGo (message victim : String) :
    Nat → List String → Nat → List (String × String)
  | 0, _, _ => []
  | Nat.succ fuel, lst, i =>
      match lst.get? i with
      | none => []
      | some c =>
          let lst2 := if c = victim then lst.erase victim else lst
          (c, message) :: broadcastGo message victim fuel lst2 (i + 1)

/-- Embedding of `Connection.broadcast` (`connection.py` lines 40-46): iterates the live
`active_connections` list (no snapshot is taken), sending the same payload
to each visited element; `victim` models the one connection (if any, i.e. if
present in the list) that disconnects during its own delivery. -/
def Connection.broadcast (active_connections : List String) (message victim : String) :
    List (String × String) :=
  broadcastGo message victim (active_connections.length + 1) active_connections 0

/-- An inbound wire message as pydantic sees it: whether the payload was
valid JSON at all, plus the decoded top-level string fields (a `none` field
is absent or of the wrong shape).  `model_validate_json` failures on this
data are `ValidationError`s. -/
structure RawMessage where
  valid_json : Bool
  message_type : Option String
  message : Option String
  sender : Option String
  game_type : Option String
deriving DecidableEq, Repr

/-- Parsed `ChatMessage` / `AnswerMessage` payload (identical field sets). -/
structure ChatMessage where
  message : String
  sender : String
deriving DecidableEq, Repr

/-- Parsed `InitializeMessage` payload. -/
structure InitializeMessage where
  game_type : GameType
  sender : String
deriving DecidableEq, Repr

/-- Embedding of `BaseMessage.model_validate_json(message)`: requires valid JSON and a
`message_type` field holding a recognized `MessageType` value. -/
def parseBase (m : RawMessage) : Except CaughtErr MessageType :=
  if m.valid_json then
    match m.message_type with
    | some s =>
        match MessageType.ofString s with
        | some mt => .ok mt
        | none => .error .validationError
    | none => .error .validationError
  else .error .validationError

/-- Embedding of `ChatMessage.model_validate_json`: additionally requires `message` and
`sender` (the `message_type` field was already validated by `parseBase`
before this runs in the dispatcher). -/
def parseChat (m : RawMessage) : Except CaughtErr ChatMessage :=
  match m.message, m.sender with
  | some msg, some snd => .ok ⟨msg, snd⟩
  | _, _ => .error .validationError

/-- Embedding of `AnswerMessage.model_validate_json`: same field set as `ChatMessage`. -/
def parseAnswer (m : RawMessage) : Except CaughtErr ChatMessage :=
  match m.message, m.sender with
  | some msg, some snd => .ok ⟨msg, snd⟩
  | _, _ => .error .validationError

/-- Embedding of `InitializeMessage.model_validate_json`: requires `game_type` to coerce
into the `GameType` enum, and `sender`. -/
def parseInit (m : RawMessage) : Except CaughtErr InitializeMessage :=
  match m.game_type, m.sender with
  | some g, some snd =>
      match GameType.ofString g with
      | some gt => .ok ⟨gt, snd⟩
      | none => .error .validationError
  | _, _ => .error .validationError

/-- Embedding of `WebsocketService` mutable state: the `self.agents` dict. -/
structure ServiceState where
  agents : List (String × LLMAgent)
deriving DecidableEq, Repr

/-- Observable outcome of one `handle_message` call: the dict afterwards,
the broadcasts emitted (in order), how many times `factory.create_agent`
ran, and which exception (if any) was caught by the `except` blocks.
`handle_message` is total — every exception its body can raise is a
subclass of `Exception` and lands in `caught`, never in the caller. -/
structure HandleResult where
  state : ServiceState
  broadcasts : List Outbound
  creations : Nat
  caught : Option CaughtErr
deriving DecidableEq, Repr

/-- Shared tail of the INITIALIZATION branch (`websocket_service.py` lines
70-95): run `initialize_theme("Let's start the game!")` on the resolved
agent — mutating the stored instance in place, which the model expresses by
writing the updated agent back — then broadcast the opening text on
success; a provider exception is caught by the outer handlers with the
mutation retained and nothing broadcast. -/
def initThemeFlow (openaiP : List Msg → Except CaughtErr String)
    (ollamaP : String → Except CaughtErr String)
    (agents : List (String × LLMAgent)) (ag : LLMAgent) (creations : Nat) : HandleResult :=
  match LLMAgent.initialize_theme openaiP ollamaP ag "Let's start the game!" with
  | (ag2, .ok response_message) =>
      ⟨⟨dictSet agents room_id ag2⟩,
        [.chatMsg (MessageType.value .INITIALIZATION) response_message "bot"],
        creations, none⟩
  | (ag2, .error e) => ⟨⟨dictSet agents room_id ag2⟩, [], creations, some e⟩

/-- Embedding of `WebsocketService.handle_message` (`websocket_service.py` lines 40-149).
Oracles: `openaiP` / `ollamaP` are the completion clients, `subp` is
`subprocess.execute` (which itself catches `TimeoutExpired` /
`CalledProcessError` and returns `None`, modelled by `Option.none`).
All branches end in a `HandleResult`; the three `except` blocks make the
function total over its input. -/
def handle_message (config : Settings)
    (openaiP : List Msg → Except CaughtErr String)
    (ollamaP : String → Except CaughtErr String)
    (subp : List String → Option CompletedProcess)
    (st : ServiceState) (m : RawMessage) : HandleResult :=
  match parseBase m with
  | .error e => ⟨st, [], 0, some e⟩
  | .ok mt =>
      match mt with
      | MessageType.INITIALIZATION =>
          match parseInit m with
          | .error e => ⟨st, [], 0, some e⟩
          | .ok initialization_message =>
              match dictGet st.agents room_id with
              | some ag => initThemeFlow openaiP ollamaP st.agents ag 0
              | none =>
                  match AgentFactory.create_agent config
                      initialization_message.game_type LLMType.OLLAMA with
                  | .error e => ⟨st, [], 0, some e⟩
                  | .ok ag =>
                      initThemeFlow openaiP ollamaP
                        (dictSet st.agents room_id ag) ag 1
      | MessageType.CHAT =>
          match parseChat m with
          | .error e => ⟨st, [], 0, some e⟩
          | .ok chat_message =>
              match dictGet st.agents room_id with
              | none => ⟨st, [], 0, some CaughtErr.keyError⟩
              | some ag =>
                  match LLMAgent.get_response openaiP ollamaP ag chat_message.message with
                  | (ag2, .ok response_message) =>
                      ⟨⟨dictSet st.agents room_id ag2⟩,
                        [.chatMsg (MessageType.value .CHAT) response_message "bot"],
                        0, none⟩
                  | (ag2, .error e) => ⟨⟨dictSet st.agents room_id ag2⟩, [], 0, some e⟩
      | MessageType.ANSWER =>
          match parseAnswer m with
          | .error e => ⟨st, [], 0, some e⟩
          | .ok chat_message =>
              match subp ["node", "libs/contracts/build/src/verify.js",
                  MINA_DEPLOY_ALIAS, chat_message.message] with
              | none => ⟨st, [], 0, some CaughtErr.attributeError⟩
              | some output =>
                  let lines := pySplitlines (pyStrip output.stdout)
                  let result := lines.getLast?
                  ⟨st,
                    [.resultMsg (MessageType.value .RESULT)
                      (if result = some "true" then "success" else "failed") "bot"],
                    0, none⟩
      | MessageType.RESULT => ⟨st, [], 0, none⟩

/-- The inputs the dispatcher drops before reaching any effectful branch:
malformed JSON / schema violations (pydantic `ValidationError` at the base
or per-kind validation) and the inbound-unsupported `result` kind (the
`case _` branch).  An envelope whose `message_type` string is not a
`MessageType` value fails base validation, so "unrecognized kind" is the
first disjunct. -/
def droppedInput (m : RawMessage) : Prop :=
  parseBase m = .error .validationError
  ∨ parseBase m = .ok MessageType.RESULT
  ∨ (parseBase m = .ok MessageType.INITIALIZATION ∧ parseInit m = .error .validationError)
  ∨ (parseBase m = .ok MessageType.CHAT ∧ parseChat m = .error .validationError)
  ∨ (parseBase m = .ok MessageType.ANSWER ∧ parseAnswer m = .error .validationError)

/-- A completion provider that always succeeds (concrete oracle used by
closed evaluations and witnesses). -/
def okListProvider : List Msg → Except CaughtErr String := fun _ => .ok "reply"

/-- An Ollama-style provider that always succeeds. -/
def okStrProvider : String → Except CaughtErr String := fun _ => .ok "reply"

/-- A freshly constructed `OpenAIAgent` as `create_agent` builds it:
empty history, no directive, no theme. -/
def freshOpenAIAgent : OpenAIAgent := ⟨"gpt-4", "SYS", "", "", []⟩

/-- Runs `n` consecutive successful `OpenAIAgent.get_response` calls. -/
def iterateResponses : Nat → OpenAIAgent → OpenAIAgent
  | 0, a => a
  | Nat.succ n, a => iterateResponses n (OpenAIAgent.get_response okListProvider a "ping").1

/-- C1: the bounded-history claim fails on `OpenAIAgent`: the code trims to
the last 10 entries only after the *user* append (`agent.py` lines 86-89),
then appends the assistant turn unconditionally (line 104), so after the
sixth successful `get_response` call — the call that commits the 11th and
12th turns — the history holds 11 entries, although after five calls it held
10.  (The `OllamaAgent` variant, whose history is a `deque(maxlen=10)`, does
satisfy the 10-entry bound.) -/
theorem openai_history_cap_violated :
    (iterateResponses 5 freshOpenAIAgent).histories.length = 10
    ∧ (iterateResponses 6 freshOpenAIAgent).histories.length = 11 := by
  constructor
  · rfl
  · rfl

/-- C2: the assembled-context claim fails on `OpenAIAgent`: lines 91-93 of
`agent.py` *reassign* `messages` instead of appending, so the context sent
to the provider is only the assistant/theme entry followed by the history —
the system prompt (and the stored directive) are omitted.  Here a concrete
agent with system prompt `"SYS"`, directive `"DIR"`, theme `"THEME"` and one
history turn assembles to exactly `[assistant THEME, user hello]`, and no
entry carries the system prompt. -/
theorem openai_assembled_context_omits_system_prompt :
    OpenAIAgent.buildMessages ⟨"gpt-4", "SYS", "DIR", "THEME", [⟨Role.user, "hello"⟩]⟩
      = [⟨Role.assistant, "THEME"⟩, ⟨Role.user, "hello"⟩]
    ∧ Msg.mk Role.system "SYS" ∉
        OpenAIAgent.buildMessages ⟨"gpt-4", "SYS", "DIR", "THEME", [⟨Role.user, "hello"⟩]⟩ := by
  constructor
  · rfl
  · decide

/-- C3 counterexample: `broadcast` takes no snapshot, so with three
registered connections and `"alice"` disconnecting during her own delivery,
only two delivery attempts happen and `"bob"` is skipped — the mid-iteration
removal silently corrupts the iteration instead of being harmless. -/
theorem broadcast_mid_disconnect_skips_connection :
    Connection.broadcast ["alice", "bob", "carol"] "payload" "alice"
      = [("alice", "payload"), ("carol", "payload")]
    ∧ ("bob", "payload") ∉ Connection.broadcast ["alice", "bob", "carol"] "payload" "alice"
    ∧ (Connection.broadcast ["alice", "bob", "carol"] "payload" "alice").length ≠ 3 := by
  refine ⟨rfl, by decide, by decide⟩

/-- When no element of the live list is removed, the index-walking loop
visits every element once, in order. -/
lemma broadcastGo_no_victim (message victim : String) :
    ∀ (fuel : Nat) (lst : List String) (i : Nat), victim ∉ lst →
      lst.length ≤ i + fuel →
      broadcastGo message victim fuel lst i = (lst.drop i).map (fun c => (c, message)) := by
  intro fuel
  induction fuel with
  | zero =>
      intro lst i _ hlen
      rw [List.drop_eq_nil_of_le (by omega)]
      rfl
  | succ n ih =>
      intro lst i hv hlen
      rw [broadcastGo]
      cases hg : lst.get? i with
      | none =>
          rw [List.drop_eq_nil_of_le (List.get?_eq_none.mp hg)]
          rfl
      | some c =>
          have hc : c ∈ lst := List.get?_mem hg
          have hne : ¬ c = victim := fun h => hv (h ▸ hc)
          simp only [hne, if_false]
          rw [ih lst (i + 1) hv (by omega)]
          have hil : i < lst.length := by
            by_contra hle
            rw [List.get?_eq_none.mpr (by omega)] at hg
            exact Option.noConfusion hg
          rw [List.drop_eq_get_cons hil]
          have : lst.get ⟨i, hil⟩ = c := by
            have := List.get?_eq_get hil
            rw [hg] at this
            exact (Option.some.injEq _ _).mp this.symm
          rw [this]
          rfl

/-- C3 amended: `broadcast` iterates the *live* connection list without a
snapshot.  When no connection is removed during the iteration, it performs
exactly one delivery attempt per registered connection, in registration
order, each with the identical payload; a removal during the iteration
raises nothing in this model, but (per the counterexample) it can skip a
connection, so the snapshot guarantee claimed by the spec does not hold. -/
theorem broadcast_without_disconnect_delivers_all
    (active : List String) (message victim : String) (h : victim ∉ active) :
    Connection.broadcast active message victim = active.map (fun c => (c, message)) := by
  unfold Connection.broadcast
  rw [broadcastGo_no_victim message victim _ _ 0 h (by omega)]
  rfl

/-- Witness for the C3 amended theorem at a concrete registry. -/
theorem broadcast_without_disconnect_delivers_all_witness :
    "dave" ∉ ["alice", "bob"]
    ∧ Connection.broadcast ["alice", "bob"] "payload" "dave"
      = [("alice", "payload"), ("bob", "payload")] := by
  refine ⟨by decide, ?_⟩
  rw [broadcast_without_disconnect_delivers_all ["alice", "bob"] "payload" "dave" (by decide)]
  rfl

/-- A dict write is visible to the next read of the same key. -/
lemma dictGet_dictSet_self (d : List (String × α)) (k : String) (v : α) :
    dictGet (dictSet d k v) k = some v := by
  induction d with
  | nil => simp [dictGet, dictSet]
  | cons kv rest ih =>
      by_cases h : kv.1 = k <;> simp [dictGet, dictSet, h, ih]

/-- Overwriting an existing binding leaves the dict size unchanged. -/
lemma dictSet_length_of_get (d : List (String × α)) (k : String) (v : α)
    (h : (dictGet d k).isSome) : (dictSet d k v).length = d.length := by
  induction d with
  | nil => simp [dictGet] at h
  | cons kv rest ih =>
      by_cases hk : kv.1 = k
      · simp [dictSet, hk]
      · simp [dictGet, hk] at h
        simp [dictSet, hk, ih h]

/-- Whether the theme call succeeds or fails, `initThemeFlow` stores the
(possibly failed-midway) updated agent back under `room_id` and reports the
creation count it was given. -/
lemma initThemeFlow_state (openaiP : List Msg → Except CaughtErr String)
    (ollamaP : String → Except CaughtErr String)
    (agents : List (String × LLMAgent)) (ag : LLMAgent) (n : Nat) :
    (initThemeFlow openaiP ollamaP agents ag n).state
      = ⟨dictSet agents room_id
          (LLMAgent.initialize_theme openaiP ollamaP ag "Let's start the game!").1⟩
    ∧ (initThemeFlow openaiP ollamaP agents ag n).creations = n := by
  unfold initThemeFlow
  rcases h : LLMAgent.initialize_theme openaiP ollamaP ag "Let's start the game!" with ⟨ag2, r2⟩
  cases r2 <;> simp [h]

/-- C4: idempotent initialization.  Starting from an empty session table,
the first `initialization` envelope runs `factory.create_agent` exactly
once; handling the same envelope again runs it zero times, the table still
holds exactly one agent, and the agent now stored is the previously stored
instance re-themed by `initialize_theme` — reused, not created or replaced
by a fresh factory product. -/
theorem initialization_idempotent
    (config : Settings) (openaiP : List Msg → Except CaughtErr String)
    (ollamaP : String → Except CaughtErr String)
    (subp : List String → Option CompletedProcess)
    (m : RawMessage) (im : InitializeMessage)
    (hb : parseBase m = .ok MessageType.INITIALIZATION)
    (hi : parseInit m = .ok im) :
    (handle_message config openaiP ollamaP subp ⟨[]⟩ m).creations = 1
    ∧ (handle_message config openaiP ollamaP subp
        (handle_message config openaiP ollamaP subp ⟨[]⟩ m).state m).creations = 0
    ∧ ((handle_message config openaiP ollamaP subp
        (handle_message config openaiP ollamaP subp ⟨[]⟩ m).state m).state.agents).length = 1
    ∧ ∃ ag, dictGet (handle_message config openaiP ollamaP subp ⟨[]⟩ m).state.agents room_id
          = some ag
        ∧ dictGet (handle_message config openaiP ollamaP subp
            (handle_message config openaiP ollamaP subp ⟨[]⟩ m).state m).state.agents room_id
          = some (LLMAgent.initialize_theme openaiP ollamaP ag "Let's start the game!").1 := by
  obtain ⟨gt, snd⟩ := im
  cases gt
  have hcreate : AgentFactory.create_agent config GameType.TWO_TRUTH_A_LIE LLMType.OLLAMA
      = .ok (.ollama ⟨config.ollama_base_url, config.ollama_chat_model,
          twoTruthALiePrompt, "", "", []⟩) := rfl
  have h1 : handle_message config openaiP ollamaP subp ⟨[]⟩ m
      = initThemeFlow openaiP ollamaP
          (dictSet [] room_id (.ollama ⟨config.ollama_base_url, config.ollama_chat_model,
            twoTruthALiePrompt, "", "", []⟩))
          (.ollama ⟨config.ollama_base_url, config.ollama_chat_model,
            twoTruthALiePrompt, "", "", []⟩) 1 := by
    simp [handle_message, hb, hi, hcreate, dictGet]
  obtain ⟨hst1, hcr1⟩ := initThemeFlow_state openaiP ollamaP
    (dictSet [] room_id (.ollama ⟨config.ollama_base_url, config.ollama_chat_model,
      twoTruthALiePrompt, "", "", []⟩))
    (.ollama ⟨config.ollama_base_url, config.ollama_chat_model,
      twoTruthALiePrompt, "", "", []⟩) 1
  set ag1 := (LLMAgent.initialize_theme openaiP ollamaP
    (.ollama ⟨config.ollama_base_url, config.ollama_chat_model,
      twoTruthALiePrompt, "", "", []⟩) "Let's start the game!").1 with hag1
  have hstate1 : (handle_message config openaiP ollamaP subp ⟨[]⟩ m).state
      = ⟨[(room_id, ag1)]⟩ := by
    rw [h1, hst1]
    simp [dictSet, room_id]
  have h2 : handle_message config openaiP ollamaP subp ⟨[(room_id, ag1)]⟩ m
      = initThemeFlow openaiP ollamaP [(room_id, ag1)] ag1 0 := by
    simp [handle_message, hb, hi, dictGet]
  obtain ⟨hst2, hcr2⟩ := initThemeFlow_state openaiP ollamaP [(room_id, ag1)] ag1 0
  set ag2 := (LLMAgent.initialize_theme openaiP ollamaP ag1 "Let's start the game!").1 with hag2
  have hstate2 : (handle_message config openaiP ollamaP subp ⟨[(room_id, ag1)]⟩ m).state
      = ⟨[(room_id, ag2)]⟩ := by
    rw [h2, hst2]
    simp [dictSet, room_id]
  refine ⟨by rw [h1]; exact hcr1, ?_, ?_, ⟨ag1, ?_, ?_⟩⟩
  · rw [hstate1, h2]
    exact hcr2
  · rw [hstate1, hstate2]
    rfl
  · rw [hstate1]
    simp [dictGet]
  · rw [hstate1, hstate2]
    simp [dictGet]

/-- C5 counterexample: an `answer` envelope sent with *no* session at all is
not a MissingSession condition — the ANSWER branch never consults the
session table, so the verifier runs and a result envelope is broadcast,
contradicting the claim that chats and answers before initialization
produce no broadcast. -/
theorem answer_without_session_still_broadcasts :
    (handle_message ⟨"key", "gpt-4", "http://localhost", "llama"⟩ okListProvider okStrProvider
        (fun _ => some ⟨"verifying\ntrue"⟩) ⟨[]⟩
        ⟨true, some "answer", some "2", some "alice", none⟩).broadcasts
      = [Outbound.resultMsg "result" "success" "bot"]
    ∧ (handle_message ⟨"key", "gpt-4", "http://localhost", "llama"⟩ okListProvider okStrProvider
        (fun _ => some ⟨"verifying\ntrue"⟩) ⟨[]⟩
        ⟨true, some "answer", some "2", some "alice", none⟩).caught = none := by
  decide

/-- C5 amended: a `chat` envelope received while no agent is stored for the
room yields the distinct, recoverable missing-session condition — the
`KeyError` from `self.agents[room_id]`, caught by the dispatcher's handlers:
no broadcast is emitted, the session table is unchanged, and no exception
reaches the caller (the receive loop survives).  `answer` envelopes are
*not* covered: they bypass the session table (see the counterexample). -/
theorem chat_without_session_is_recoverable_keyerror
    (config : Settings) (openaiP : List Msg → Except CaughtErr String)
    (ollamaP : String → Except CaughtErr String)
    (subp : List String → Option CompletedProcess)
    (st : ServiceState) (m : RawMessage) (cm : ChatMessage)
    (hb : parseBase m = .ok MessageType.CHAT)
    (hc : parseChat m = .ok cm)
    (hs : dictGet st.agents room_id = none) :
    handle_message config openaiP ollamaP subp st m
      = ⟨st, [], 0, some CaughtErr.keyError⟩ := by
  simp [handle_message, hb, hc, hs]

/-- Witness for the C5 amended theorem: a concrete chat envelope against an
empty session table. -/
theorem chat_without_session_witness :
    parseBase ⟨true, some "chat", some "hi", some "alice", none⟩ = .ok MessageType.CHAT
    ∧ parseChat ⟨true, some "chat", some "hi", some "alice", none⟩
        = .ok ⟨"hi", "alice"⟩
    ∧ dictGet (ServiceState.mk []).agents room_id = none
    ∧ handle_message ⟨"key", "gpt-4", "http://localhost", "llama"⟩ okListProvider okStrProvider
        (fun _ => none) ⟨[]⟩ ⟨true, some "chat", some "hi", some "alice", none⟩
      = ⟨⟨[]⟩, [], 0, some CaughtErr.keyError⟩ :=
  ⟨rfl, rfl, rfl,
    chat_without_session_is_recoverable_keyerror
      ⟨"key", "gpt-4", "http://localhost", "llama"⟩ okListProvider okStrProvider
      (fun _ => none) ⟨[]⟩ ⟨true, some "chat", some "hi", some "alice", none⟩
      ⟨"hi", "alice"⟩ rfl rfl rfl⟩

/-- C6: total, inert handling of bad input.  For every inbound payload that
is malformed JSON, violates an envelope schema, carries an unrecognized
`message_type` string (all pydantic `ValidationError`s) or carries the
inbound-unsupported `result` kind (the `case _` branch), `handle_message`
emits zero broadcasts and leaves the session table unchanged; the exception,
if any, lands in `caught` — by construction of the model (mirroring the
`except` blocks, which catch every `Exception`) nothing propagates to the
receive loop. -/
theorem invalid_or_unknown_input_inert
    (config : Settings) (openaiP : List Msg → Except CaughtErr String)
    (ollamaP : String → Except CaughtErr String)
    (subp : List String → Option CompletedProcess)
    (st : ServiceState) (m : RawMessage)
    (h : droppedInput m) :
    (handle_message config openaiP ollamaP subp st m).broadcasts = []
    ∧ (handle_message config openaiP ollamaP subp st m).state = st := by
  rcases h with h | h | ⟨h1, h2⟩ | ⟨h1, h2⟩ | ⟨h1, h2⟩ <;>
    simp [handle_message, *]

/-- Witness for C6 at a concrete unrecognized-kind envelope. -/
theorem invalid_or_unknown_input_inert_witness :
    droppedInput ⟨true, some "bogus_kind", some "x", some "alice", none⟩
    ∧ (handle_message ⟨"key", "gpt-4", "http://localhost", "llama"⟩ okListProvider okStrProvider
        (fun _ => none) ⟨[]⟩ ⟨true, some "bogus_kind", some "x", some "alice", none⟩).broadcasts = []
    ∧ (handle_message ⟨"key", "gpt-4", "http://localhost", "llama"⟩ okListProvider okStrProvider
        (fun _ => none) ⟨[]⟩ ⟨true, some "bogus_kind", some "x", some "alice", none⟩).state = ⟨[]⟩ := by
  refine ⟨Or.inl rfl, ?_⟩
  exact invalid_or_unknown_input_inert
    ⟨"key", "gpt-4", "http://localhost", "llama"⟩ okListProvider okStrProvider
    (fun _ => none) ⟨[]⟩ ⟨true, some "bogus_kind", some "x", some "alice", none⟩
    (Or.inl rfl)

/-- A completion provider that always fails (concrete failing oracle). -/
def errListProvider : List Msg → Except CaughtErr String := fun _ => .error CaughtErr.providerError

/-- An Ollama-style provider that always fails. -/
def errStrProvider : String → Except CaughtErr String := fun _ => .error CaughtErr.providerError

/-- A freshly constructed `OllamaAgent` as `create_agent` builds it. -/
def freshOllamaAgent : OllamaAgent := ⟨"http://localhost", "llama", "SYS", "", "", []⟩

/-- C7: a provider failure inside `get_response` is local to that request.
Part 1 (`OpenAIAgent`): the call returns the agent exactly as it stood at
the moment of the provider call (the user turn committed per the
recommended policy, no assistant turn), re-raising as `RuntimeError`.
Part 2 (`OllamaAgent`): same, propagating the provider error.
Part 3 (dispatcher): on a `chat` envelope whose provider call fails, the
handler broadcasts nothing, keeps the (user-turn-updated) agent stored
under the room key in the session table, and catches the exception instead
of letting it reach the receive loop. -/
theorem provider_failure_is_local :
    (∀ (openaiP : List Msg → Except CaughtErr String) (a : OpenAIAgent) (p : String)
        (e : CaughtErr), openaiP (OpenAIAgent.assembled a p) = .error e →
      OpenAIAgent.get_response openaiP a p = (a.afterUser p, .error CaughtErr.runtimeError))
    ∧ (∀ (ollamaP : String → Except CaughtErr String) (a : OllamaAgent) (p : String)
        (e : CaughtErr), ollamaP (OllamaAgent.assembled a p) = .error e →
      OllamaAgent.get_response ollamaP a p = (a.afterUser p, .error CaughtErr.providerError))
    ∧ (∀ (config : Settings) (openaiP : List Msg → Except CaughtErr String)
        (ollamaP : String → Except CaughtErr String)
        (subp : List String → Option CompletedProcess)
        (st : ServiceState) (m : RawMessage) (cm : ChatMessage) (ag : LLMAgent) (e : CaughtErr),
      parseBase m = .ok MessageType.CHAT →
      parseChat m = .ok cm →
      dictGet st.agents room_id = some ag →
      (LLMAgent.get_response openaiP ollamaP ag cm.message).2 = .error e →
      handle_message config openaiP ollamaP subp st m
        = ⟨⟨dictSet st.agents room_id (LLMAgent.get_response openaiP ollamaP ag cm.message).1⟩,
           [], 0, some e⟩) := by
  refine ⟨?_, ?_, ?_⟩
  · intro openaiP a p e h
    unfold OpenAIAgent.get_response
    rw [h]
  · intro ollamaP a p e h
    unfold OllamaAgent.get_response
    rw [h]
  · intro config openaiP ollamaP subp st m cm ag e hb hc hs hf
    rcases hg : LLMAgent.get_response openaiP ollamaP ag cm.message with ⟨ag2, r2⟩
    rw [hg] at hf
    simp only at hf
    subst hf
    simp [handle_message, hb, hc, hs, hg]

/-- Witness for C7: concrete failing providers against a fresh OpenAI agent,
a fresh Ollama agent, and a stored session handling a concrete chat. -/
theorem provider_failure_is_local_witness :
    (errListProvider (OpenAIAgent.assembled freshOpenAIAgent "hi") = .error CaughtErr.providerError
      ∧ OpenAIAgent.get_response errListProvider freshOpenAIAgent "hi"
          = (freshOpenAIAgent.afterUser "hi", .error CaughtErr.runtimeError))
    ∧ (errStrProvider (OllamaAgent.assembled freshOllamaAgent "hi") = .error CaughtErr.providerError
      ∧ OllamaAgent.get_response errStrProvider freshOllamaAgent "hi"
          = (freshOllamaAgent.afterUser "hi", .error CaughtErr.providerError))
    ∧ ((LLMAgent.get_response errListProvider errStrProvider
          (.ollama freshOllamaAgent) "hi").2 = .error CaughtErr.providerError
      ∧ handle_message ⟨"key", "gpt-4", "http://localhost", "llama"⟩ errListProvider errStrProvider
          (fun _ => none) ⟨[(room_id, .ollama freshOllamaAgent)]⟩
          ⟨true, some "chat", some "hi", some "alice", none⟩
        = ⟨⟨dictSet [(room_id, .ollama freshOllamaAgent)] room_id
              (LLMAgent.get_response errListProvider errStrProvider
                (.ollama freshOllamaAgent) "hi").1⟩,
           [], 0, some CaughtErr.providerError⟩) := by
  refine ⟨⟨rfl, ?_⟩, ⟨rfl, ?_⟩, ⟨rfl, ?_⟩⟩
  · exact provider_failure_is_local.1 errListProvider freshOpenAIAgent "hi"
      CaughtErr.providerError rfl
  · exact provider_failure_is_local.2.1 errStrProvider freshOllamaAgent "hi"
      CaughtErr.providerError rfl
  · exact provider_failure_is_local.2.2 ⟨"key", "gpt-4", "http://localhost", "llama"⟩
      errListProvider errStrProvider (fun _ => none)
      ⟨[(room_id, .ollama freshOllamaAgent)]⟩
      ⟨true, some "chat", some "hi", some "alice", none⟩
      ⟨"hi", "alice"⟩ (.ollama freshOllamaAgent) CaughtErr.providerError
      rfl rfl (by decide) rfl

/-- C8 counterexample: when the verifier subprocess fails (timeout or
non-zero exit), `subprocess.execute` returns `None`, the dispatcher's
`output.stdout` raises `AttributeError`, and *no* result envelope is
broadcast at all — so the claim that every answer envelope yields an
outcome in success/failed is false. -/
theorem verifier_subprocess_failure_emits_no_result :
    (handle_message ⟨"key", "gpt-4", "http://localhost", "llama"⟩ okListProvider okStrProvider
        (fun _ => none) ⟨[]⟩ ⟨true, some "answer", some "2", some "alice", none⟩).broadcasts = []
    ∧ (handle_message ⟨"key", "gpt-4", "http://localhost", "llama"⟩ okListProvider okStrProvider
        (fun _ => none) ⟨[]⟩ ⟨true, some "answer", some "2", some "alice", none⟩).caught
      = some CaughtErr.attributeError := by
  decide

/-- C8 amended: when the verifier subprocess invocation *returns a completed
result*, the answer branch broadcasts exactly one result envelope whose
`result` is `"success"` precisely when the last line of the stripped stdout
equals `"true"`, and `"failed"` in every other completed case (including
empty output); when the invocation fails, no result envelope is emitted
(see the counterexample). -/
theorem answer_outcome_follows_last_stdout_line
    (config : Settings) (openaiP : List Msg → Except CaughtErr String)
    (ollamaP : String → Except CaughtErr String)
    (subp : List String → Option CompletedProcess)
    (st : ServiceState) (m : RawMessage) (cm : ChatMessage) (cp : CompletedProcess)
    (hb : parseBase m = .ok MessageType.ANSWER)
    (ha : parseAnswer m = .ok cm)
    (hs : subp ["node", "libs/contracts/build/src/verify.js", MINA_DEPLOY_ALIAS, cm.message]
        = some cp) :
    handle_message config openaiP ollamaP subp st m
      = ⟨st, [Outbound.resultMsg "result"
            (if (pySplitlines (pyStrip cp.stdout)).getLast? = some "true"
              then "success" else "failed") "bot"], 0, none⟩
    ∧ ((if (pySplitlines (pyStrip cp.stdout)).getLast? = some "true"
          then "success" else "failed") = "success"
        ↔ (pySplitlines (pyStrip cp.stdout)).getLast? = some "true") := by
  constructor
  · simp [handle_message, hb, ha, hs, MessageType.value]
  · by_cases h : (pySplitlines (pyStrip cp.stdout)).getLast? = some "true" <;> simp [h]

/-- Witness for the C8 amended theorem: a concrete completed subprocess
whose last stdout line is `"false"`. -/
theorem answer_outcome_witness :
    parseBase ⟨true, some "answer", some "2", some "alice", none⟩ = .ok MessageType.ANSWER
    ∧ parseAnswer ⟨true, some "answer", some "2", some "alice", none⟩ = .ok ⟨"2", "alice"⟩
    ∧ (fun _ : List String => some (CompletedProcess.mk "setup\nfalse"))
        ["node", "libs/contracts/build/src/verify.js", MINA_DEPLOY_ALIAS, "2"]
        = some (CompletedProcess.mk "setup\nfalse")
    ∧ (handle_message ⟨"key", "gpt-4", "http://localhost", "llama"⟩ okListProvider okStrProvider
          (fun _ => some (CompletedProcess.mk "setup\nfalse")) ⟨[]⟩
          ⟨true, some "answer", some "2", some "alice", none⟩
        = ⟨⟨[]⟩, [Outbound.resultMsg "result"
              (if (pySplitlines (pyStrip (CompletedProcess.mk "setup\nfalse").stdout)).getLast?
                  = some "true" then "success" else "failed") "bot"], 0, none⟩
      ∧ ((if (pySplitlines (pyStrip (CompletedProcess.mk "setup\nfalse").stdout)).getLast?
            = some "true" then "success" else "failed") = "success"
          ↔ (pySplitlines (pyStrip (CompletedProcess.mk "setup\nfalse").stdout)).getLast?
            = some "true")) :=
  ⟨rfl, rfl, rfl,
    answer_outcome_follows_last_stdout_line ⟨"key", "gpt-4", "http://localhost", "llama"⟩
      okListProvider okStrProvider (fun _ => some (CompletedProcess.mk "setup\nfalse")) ⟨[]⟩
      ⟨true, some "answer", some "2", some "alice", none⟩ ⟨"2", "alice"⟩
      (CompletedProcess.mk "setup\nfalse") rfl rfl rfl⟩

/-- C9 counterexample: registering one connection and disconnecting it twice
raises `ValueError` on the second call — `disconnect` is *not* a no-op on an
absent connection, because Python `list.remove` raises. -/
theorem double_disconnect_raises_valueerror :
    Connection.disconnect ["w1"] "w1" = .ok []
    ∧ Connection.disconnect [] "w1" = .error PyError.valueError := by
  constructor
  · rfl
  · rfl

/-- C9 amended: `disconnect(conn)` removes the (unique) occurrence of a
registered connection from the active list; calling it again for the same
connection raises `ValueError` instead of being a no-op — the registry list
itself is left unchanged by the raising call, but the exception propagates
to the caller. -/
theorem disconnect_removes_present_raises_absent
    (active : List String) (w : String) (h : active.count w = 1) :
    Connection.disconnect active w = .ok (active.erase w)
    ∧ Connection.disconnect (active.erase w) w = .error PyError.valueError := by
  have hmem : w ∈ active := List.count_pos_iff.mp (by omega)
  have hcnt : (active.erase w).count w = active.count w - 1 := List.count_erase_self w active
  have hnot : w ∉ active.erase w := by
    intro hmem2
    have := List.count_pos_iff.mpr hmem2
    omega
  exact ⟨by simp [Connection.disconnect, hmem], by simp [Connection.disconnect, hnot]⟩

/-- Witness for the C9 amended theorem at a concrete two-element registry. -/
theorem disconnect_removes_present_raises_absent_witness :
    (["w1", "w2"].count "w1" = 1)
    ∧ (Connection.disconnect ["w1", "w2"] "w1" = .ok (["w1", "w2"].erase "w1")
      ∧ Connection.disconnect (["w1", "w2"].erase "w1") "w1" = .error PyError.valueError) :=
  ⟨by decide, disconnect_removes_present_raises_absent ["w1", "w2"] "w1" (by decide)⟩

/-- C10: the dispatcher hard-codes `LLMType.OLLAMA` when creating the agent
for an `initialization` envelope, so whatever the envelope's fields, the
agent stored in the session table is the Ollama variant (and it stays the
Ollama variant after the in-place theme initialization, whether the theme
call succeeds or fails). -/
theorem initialization_always_creates_ollama
    (config : Settings) (openaiP : List Msg → Except CaughtErr String)
    (ollamaP : String → Except CaughtErr String)
    (subp : List String → Option CompletedProcess)
    (st : ServiceState) (m : RawMessage) (im : InitializeMessage)
    (hb : parseBase m = .ok MessageType.INITIALIZATION)
    (hi : parseInit m = .ok im)
    (hs : dictGet st.agents room_id = none) :
    ∃ a : OllamaAgent,
      dictGet (handle_message config openaiP ollamaP subp st m).state.agents room_id
        = some (LLMAgent.ollama a) := by
  obtain ⟨gt, snd⟩ := im
  cases gt
  have hcreate : AgentFactory.create_agent config GameType.TWO_TRUTH_A_LIE LLMType.OLLAMA
      = .ok (.ollama ⟨config.ollama_base_url, config.ollama_chat_model,
          twoTruthALiePrompt, "", "", []⟩) := rfl
  have h1 : handle_message config openaiP ollamaP subp st m
      = initThemeFlow openaiP ollamaP
          (dictSet st.agents room_id (.ollama ⟨config.ollama_base_url, config.ollama_chat_model,
            twoTruthALiePrompt, "", "", []⟩))
          (.ollama ⟨config.ollama_base_url, config.ollama_chat_model,
            twoTruthALiePrompt, "", "", []⟩) 1 := by
    simp [handle_message, hb, hi, hs, hcreate]
  rw [h1,
    (initThemeFlow_state openaiP ollamaP
      (dictSet st.agents room_id (.ollama ⟨config.ollama_base_url, config.ollama_chat_model,
        twoTruthALiePrompt, "", "", []⟩))
      (.ollama ⟨config.ollama_base_url, config.ollama_chat_model,
        twoTruthALiePrompt, "", "", []⟩) 1).1]
  rw [dictGet_dictSet_self]
  simp [LLMAgent.initialize_theme]

/-- Witness for C10: a concrete initialization envelope against an empty
session table. -/
theorem initialization_always_creates_ollama_witness :
    parseBase ⟨true, some "initialization", none, some "alice", some "two_truth_a_lie"⟩
      = .ok MessageType.INITIALIZATION
    ∧ parseInit ⟨true, some "initialization", none, some "alice", some "two_truth_a_lie"⟩
      = .ok ⟨GameType.TWO_TRUTH_A_LIE, "alice"⟩
    ∧ dictGet (ServiceState.mk []).agents room_id = none
    ∧ ∃ a : OllamaAgent,
        dictGet (handle_message ⟨"key", "gpt-4", "http://localhost", "llama"⟩ okListProvider
          okStrProvider (fun _ => none) ⟨[]⟩
          ⟨true, some "initialization", none, some "alice", some "two_truth_a_lie"⟩).state.agents
          room_id
        = some (LLMAgent.ollama a) :=
  ⟨rfl, rfl, rfl,
    initialization_always_creates_ollama ⟨"key", "gpt-4", "http://localhost", "llama"⟩
      okListProvider okStrProvider (fun _ => none) ⟨[]⟩
      ⟨true, some "initialization", none, some "alice", some "two_truth_a_lie"⟩
      ⟨GameType.TWO_TRUTH_A_LIE, "alice"⟩ rfl rfl rfl⟩

/-- Witness for C4 at a concrete initialization envelope. -/
theorem initialization_idempotent_witness :
    parseBase ⟨true, some "initialization", none, some "alice", some "two_truth_a_lie"⟩
      = .ok MessageType.INITIALIZATION
    ∧ parseInit ⟨true, some "initialization", none, some "alice", some "two_truth_a_lie"⟩
      = .ok ⟨GameType.TWO_TRUTH_A_LIE, "alice"⟩
    ∧ ((handle_message ⟨"key", "gpt-4", "http://localhost", "llama"⟩ okListProvider okStrProvider
          (fun _ => none) ⟨[]⟩
          ⟨true, some "initialization", none, some "alice", some "two_truth_a_lie"⟩).creations = 1
      ∧ (handle_message ⟨"key", "gpt-4", "http://localhost", "llama"⟩ okListProvider okStrProvider
          (fun _ => none)
          (handle_message ⟨"key", "gpt-4", "http://localhost", "llama"⟩ okListProvider okStrProvider
            (fun _ => none) ⟨[]⟩
            ⟨true, some "initialization", none, some "alice", some "two_truth_a_lie"⟩).state
          ⟨true, some "initialization", none, some "alice", some "two_truth_a_lie"⟩).creations = 0
      ∧ ((handle_message ⟨"key", "gpt-4", "http://localhost", "llama"⟩ okListProvider okStrProvider
          (fun _ => none)
          (handle_message ⟨"key", "gpt-4", "http://localhost", "llama"⟩ okListProvider okStrProvider
            (fun _ => none) ⟨[]⟩
            ⟨true, some "initialization", none, some "alice", some "two_truth_a_lie"⟩).state
          ⟨true, some "initialization", none, some "alice", some "two_truth_a_lie"⟩).state.agents).length = 1
      ∧ ∃ ag, dictGet (handle_message ⟨"key", "gpt-4", "http://localhost", "llama"⟩ okListProvider
            okStrProvider (fun _ => none) ⟨[]⟩
            ⟨true, some "initialization", none, some "alice", some "two_truth_a_lie"⟩).state.agents
            room_id = some ag
          ∧ dictGet (handle_message ⟨"key", "gpt-4", "http://localhost", "llama"⟩ okListProvider
              okStrProvider (fun _ => none)
              (handle_message ⟨"key", "gpt-4", "http://localhost", "llama"⟩ okListProvider
                okStrProvider (fun _ => none) ⟨[]⟩
                ⟨true, some "initialization", none, some "alice", some "two_truth_a_lie"⟩).state
              ⟨true, some "initialization", none, some "alice", some "two_truth_a_lie"⟩).state.agents
            room_id
            = some (LLMAgent.initialize_theme okListProvider okStrProvider ag
                "Let's start the game!").1) :=
  ⟨rfl, rfl,
    initialization_idempotent ⟨"key", "gpt-4", "http://localhost", "llama"⟩ okListProvider
      okStrProvider (fun _ => none)
      ⟨true, some "initialization", none, some "alice", some "two_truth_a_lie"⟩
      ⟨GameType.TWO_TRUTH_A_LIE, "alice"⟩ rfl rfl⟩
